import Mathlib

/-!
Verification of the excali-note notebook editor.

This file gives a shallow embedding of the TypeScript source of the
excali-note repository and proves or refutes the frozen claims about it.
JavaScript numbers are idealised as rationals (for the editor state and
the PagePreview renderer, where only equality, order and field presence
matter) and as reals (for the NotebookCard renderer, whose arrowhead
geometry uses trigonometry).  A possibly-absent object field is an
Option; arithmetic on possibly-absent numbers propagates absence the way
NaN propagates in JavaScript.  Code paths that throw a TypeError are
modelled with Except: an error value means the draw aborted.
-/

namespace ExcaliNote

/-- A drawing element as the renderers see it: an open record whose fields
may each be absent.  Mirrors the untyped element objects consumed by
PagePreview.tsx and NotebookCard.tsx. -/
structure Element (α : Type) where
  type : String
  x : Option α := none
  y : Option α := none
  width : Option α := none
  height : Option α := none
  points : Option (List (α × α)) := none
  text : Option String := none
  fontSize : Option α := none
  fontFamily : Option Nat := none
  strokeColor : Option String := none
  strokeWidth : Option α := none
  backgroundColor : Option String := none
  fillStyle : Option String := none
  endArrowhead : Option String := none
  fileId : Option String := none
  isDeleted : Option Bool := none
  deriving DecidableEq

/-- The appState slice the code actually touches (src/src/types.ts,
App.tsx). -/
structure AppState where
  viewBackgroundColor : String
  deriving DecidableEq

/-- A file attachment record: the only field the renderers read is
dataURL (PagePreview.tsx image case). -/
structure FileRec where
  dataURL : Option String := none
  deriving DecidableEq

/-- The files mapping of a page, file id to attachment. -/
abbrev FilesMap := List (String × FileRec)

/-- A page (src/src/types.ts).  appState and files may be absent at
runtime: pages created by the add-page button carry no files field, and
pages parsed from legacy JSON may lack appState. -/
structure Page (α : Type) where
  id : String
  elements : List (Element α)
  appState : Option AppState := none
  files : Option FilesMap := none
  deriving DecidableEq

instance {α : Type} : Inhabited (Page α) where
  default := { id := "", elements := [] }

/-- A notebook (src/src/types.ts). -/
structure Notebook (α : Type) where
  id : String
  name : String
  pages : List (Page α)
  createdAt : Nat
  updatedAt : Nat
  deriving DecidableEq

/-- JavaScript findIndex: the index of the first element satisfying the
predicate, or none (the source returns -1). -/
def findIndexFrom {α : Type} (p : α → Bool) : List α → Nat → Option Nat
  | [], _ => none
  | a :: as, n => if p a then some n else findIndexFrom p as (n + 1)

/-- JavaScript Array.prototype.findIndex, as used by handleDelete and
handlePageMove in NotebookEditor.tsx. -/
def findIndex {α : Type} (p : α → Bool) (l : List α) : Option Nat :=
  findIndexFrom p l 0

/-- The NotebookEditor component state relevant to the page operations:
the page list and the active page index.  The index is an integer
because the source manipulates it with unguarded JavaScript arithmetic
(min with newPages.length - 1 can in principle go negative). -/
structure EditorState where
  pages : List (Page ℚ)
  currentPageIndex : Int
  deriving DecidableEq

/-- handleDelete from NotebookEditor.tsx lines 67-85: refuse when only
one page remains or the id is not found, otherwise drop every page with
the given id and adjust the active index. -/
def handleDelete (st : EditorState) (deletionId : String) : EditorState :=
  if st.pages.length ≤ 1 then st
  else
    match findIndex (fun page => page.id == deletionId) st.pages with
    | none => st
    | some deletionPageIndex =>
      let newPages := st.pages.filter (fun page => page.id != deletionId)
      let cur := st.currentPageIndex
      let cur' :=
        if (deletionPageIndex : Int) < cur then cur - 1
        else if (deletionPageIndex : Int) = cur then
          min cur ((newPages.length : Int) - 1)
        else cur
      { pages := newPages, currentPageIndex := cur' }

/-- Direction argument of handlePageMove. -/
inductive MoveDir where
  | up
  | down
  deriving DecidableEq

/-- handlePageMove from NotebookEditor.tsx lines 88-109: swap the found
page with its adjacent sibling and relocate the active index if either
swapped slot was active. -/
def handlePageMove (st : EditorState) (pageId : String) (dir : MoveDir) :
    EditorState :=
  match findIndex (fun page => page.id == pageId) st.pages with
  | none => st
  | some pageIndex =>
    let newIndex : Int :=
      if dir = MoveDir.up then (pageIndex : Int) - 1 else (pageIndex : Int) + 1
    if newIndex < 0 ∨ (st.pages.length : Int) ≤ newIndex then st
    else
      let j := newIndex.toNat
      let pgI := st.pages.getD pageIndex default
      let pgJ := st.pages.getD j default
      let newPages := (st.pages.set pageIndex pgJ).set j pgI
      let cur := st.currentPageIndex
      let cur' :=
        if (pageIndex : Int) = cur then (j : Int)
        else if (j : Int) = cur then (pageIndex : Int)
        else cur
      { pages := newPages, currentPageIndex := cur' }

/-- The add-page button of NotebookEditor.tsx lines 128-139: append a
blank page whose id is built from the current page count. -/
def addPage (st : EditorState) : EditorState :=
  { st with
    pages := st.pages ++
      [{ id := "page-" ++ toString (st.pages.length + 1)
         elements := []
         appState := some { viewBackgroundColor := "#ffffff" } }] }

/-- The initial single page of a fresh notebook (INITIAL_PAGE in App). -/
def INITIAL_PAGE : Page ℚ :=
  { id := "page-1"
    elements := []
    appState := some { viewBackgroundColor := "#ffffff" }
    files := some [] }

/-- Editor state on opening a fresh notebook: one blank page, index 0. -/
def initialEditorState : EditorState :=
  { pages := [INITIAL_PAGE], currentPageIndex := 0 }

/-- The page operations reachable from the editor UI. -/
inductive EditorOp where
  | addPageOp
  | deletePageOp (id : String)
  | movePageOp (id : String) (dir : MoveDir)

/-- Apply one UI operation to the editor state. -/
def applyOp (st : EditorState) : EditorOp → EditorState
  | EditorOp.addPageOp => addPage st
  | EditorOp.deletePageOp i => handleDelete st i
  | EditorOp.movePageOp i d => handlePageMove st i d

/-- Run a sequence of UI operations. -/
def runOps (st : EditorState) (ops : List EditorOp) : EditorState :=
  ops.foldl applyOp st

/-- The debounced change handler of NotebookEditor.tsx lines 20-43,
stripped of the debounce timing: given the committed element list and
files mapping, either skip (ok none, the pages-change callback is not
invoked, hence no storage write) when the new elements are deep-equal to
the stored ones, or produce the new page list (ok some).  Reading
pages[currentPageIndex].elements with an out-of-range index would throw,
modelled as error. -/
def handleChange (st : EditorState) (elements : List (Element ℚ))
    (files : FilesMap) : Except Unit (Option (List (Page ℚ))) :=
  if h : 0 ≤ st.currentPageIndex ∧ st.currentPageIndex.toNat < st.pages.length
  then
    let cur := st.currentPageIndex.toNat
    let page := st.pages.get ⟨cur, h.2⟩
    if page.elements = elements then Except.ok none
    else
      Except.ok (some (st.pages.set cur
        { elements := elements
          id := page.id
          appState := page.appState
          files := some files }))
  else Except.error ()

/-! ## PagePreview renderer (src/src/components/PagePreview.tsx)

Modelled over rationals with an abstract trigonometry oracle: the claims
about this renderer concern crash behaviour and guards, never the values
Math.cos, Math.sin, Math.atan2 and Math.PI return, so those are opaque
parameters.  Arithmetic on possibly-absent numbers propagates absence
(NaN propagation). -/

/-- NaN-propagating addition on possibly-absent numbers. -/
def nadd {α : Type} [Add α] : Option α → Option α → Option α
  | some a, some b => some (a + b)
  | _, _ => none

/-- NaN-propagating subtraction on possibly-absent numbers. -/
def nsub {α : Type} [Sub α] : Option α → Option α → Option α
  | some a, some b => some (a - b)
  | _, _ => none

/-- NaN-propagating multiplication on possibly-absent numbers. -/
def nmul {α : Type} [Mul α] : Option α → Option α → Option α
  | some a, some b => some (a * b)
  | _, _ => none

/-- JavaScript strict greater-than: false when either side is NaN. -/
def ngt (a b : Option ℚ) : Bool :=
  match a, b with
  | some a, some b => decide (b < a)
  | _, _ => false

/-- JavaScript a || d for a numeric a: d when a is absent or 0. -/
def jsOrNum {α : Type} [Zero α] [DecidableEq α] (a : Option α) (d : α) : α :=
  match a with
  | some v => if v = 0 then d else v
  | none => d

/-- JavaScript a || d for a string a: d when a is absent or empty. -/
def jsOrStr (a : Option String) (d : String) : String :=
  match a with
  | some s => if s = "" then d else s
  | none => d

/-- The style options record both renderers build for rough.js. -/
structure DrawStyle (α : Type) where
  stroke : String
  strokeWidth : α
  fill : Option String
  fillStyle : Option String
  deriving DecidableEq

/-- One primitive drawing call emitted by a renderer. -/
inductive Draw (α : Type) where
  | rect (x y w h : Option α) (sty : DrawStyle α)
  | fillText (line : String) (x y : Option α)
  | polygon (pts : List (Option α × Option α)) (sty : DrawStyle α)
  | ellipse (cx cy w h : Option α) (sty : DrawStyle α)
  | line (x1 y1 x2 y2 : Option α) (sty : DrawStyle α)
  | curve (pts : List (Option α × Option α)) (sty : DrawStyle α)
  | image (x y w h : Option α)
  deriving DecidableEq

/-- Opaque stand-ins for Math.cos, Math.sin, Math.atan2 and Math.PI as
used by the PagePreview arrowhead code. -/
structure TrigOracle where
  cosQ : ℚ → ℚ
  sinQ : ℚ → ℚ
  atan2Q : ℚ → ℚ → ℚ
  piQ : ℚ

/-- NaN-propagating cosine via the oracle. -/
def ncos (t : TrigOracle) : Option ℚ → Option ℚ := Option.map t.cosQ

/-- NaN-propagating sine via the oracle. -/
def nsin (t : TrigOracle) : Option ℚ → Option ℚ := Option.map t.sinQ

/-- NaN-propagating atan2 via the oracle. -/
def natan2 (t : TrigOracle) (y x : Option ℚ) : Option ℚ :=
  match y, x with
  | some y, some x => some (t.atan2Q y x)
  | _, _ => none

/-- PREVIEW_WIDTH / 595 from PagePreview.tsx lines 18-19. -/
def PREVIEW_SCALE : ℚ := 200 / 595

/-- scaleElement from PagePreview.tsx lines 209-219: each of x, y,
width, height is multiplied by the scale factor when it is present
(typeof check), and left untouched otherwise. -/
def scaleElementPreview (e : Element ℚ) : Element ℚ :=
  { e with
    x := e.x.map (fun v => v * PREVIEW_SCALE)
    y := e.y.map (fun v => v * PREVIEW_SCALE)
    width := e.width.map (fun v => v * PREVIEW_SCALE)
    height := e.height.map (fun v => v * PREVIEW_SCALE) }

/-- The options object built at PagePreview.tsx lines 58-63. -/
def previewStyle (e : Element ℚ) : DrawStyle ℚ :=
  { stroke := jsOrStr e.strokeColor ("#000000")
    strokeWidth := jsOrNum e.strokeWidth 1 * PREVIEW_SCALE
    fill := e.backgroundColor
    fillStyle := e.fillStyle }

/-- The text-wrapping loop of the PagePreview text case (lines 84-104):
words are accumulated into a line until the measured width exceeds the
scaled element width, each full line becoming one fillText call. -/
def wrapWords (measure : String → ℚ) (maxW : Option ℚ) (x : Option ℚ)
    (lineGap : ℚ) : List String → String → Option ℚ → List (Draw ℚ)
  | [], line, y => if line != "" then [Draw.fillText line x y] else []
  | w :: ws, line, y =>
    let testLine := line ++ (if line != "" then (" ") else ("")) ++ w
    if ngt (some (measure testLine)) maxW && line != "" then
      Draw.fillText line x y ::
        wrapWords measure maxW x lineGap ws w (nadd y (some lineGap))
    else
      wrapWords measure maxW x lineGap ws testLine y

/-- Render one element in the PagePreview switch (lines 65-205).  An
error value is a thrown TypeError: reading points[0] of a missing or
empty point list in the line/arrow case, calling split on a missing
text field, or indexing a missing files mapping in the image case. -/
def renderPreviewElement (t : TrigOracle) (measure : String → ℚ)
    (files : Option FilesMap) (e : Element ℚ) :
    Except Unit (List (Draw ℚ)) :=
  let se := scaleElementPreview e
  let sty := previewStyle e
  if e.type == "rectangle" then
    Except.ok [Draw.rect se.x se.y se.width se.height sty]
  else if e.type == "text" then
    match e.text with
    | none => Except.error ()
    | some txt =>
      let scaledFontSize := jsOrNum e.fontSize 20 * PREVIEW_SCALE
      let y0 := nadd se.y (some scaledFontSize)
      Except.ok (wrapWords measure se.width se.x (scaledFontSize * (12 / 10))
        (txt.splitOn (" ")) "" y0)
  else if e.type == "diamond" then
    let midX := nadd se.x (nmul se.width (some (1 / 2)))
    let midY := nadd se.y (nmul se.height (some (1 / 2)))
    Except.ok [Draw.polygon
      [(midX, se.y),
       (nadd se.x se.width, midY),
       (midX, nadd se.y se.height),
       (se.x, midY)] sty]
  else if e.type == "ellipse" then
    Except.ok [Draw.ellipse
      (nadd se.x (nmul se.width (some (1 / 2))))
      (nadd se.y (nmul se.height (some (1 / 2))))
      se.width se.height sty]
  else if e.type == "line" || e.type == "arrow" then
    match e.points with
    | none => Except.error ()
    | some [] => Except.error ()
    | some (p0 :: rest) =>
      let pLast := rest.getLastD p0
      let x1 := nmul (nadd e.x (some p0.1)) (some PREVIEW_SCALE)
      let y1 := nmul (nadd e.y (some p0.2)) (some PREVIEW_SCALE)
      let x2 := nmul (nadd e.x (some pLast.1)) (some PREVIEW_SCALE)
      let y2 := nmul (nadd e.y (some pLast.2)) (some PREVIEW_SCALE)
      let shaft := Draw.line x1 y1 x2 y2 sty
      if e.type == "arrow" && e.endArrowhead == some ("arrow") then
        let angle := natan2 t (nsub y2 y1) (nsub x2 x1)
        let arrowLength := 10 * PREVIEW_SCALE
        let arrowAngle := t.piQ / 6
        Except.ok [shaft,
          Draw.line x2 y2
            (nsub x2 (nmul (some arrowLength)
              (ncos t (nsub angle (some arrowAngle)))))
            (nsub y2 (nmul (some arrowLength)
              (nsin t (nsub angle (some arrowAngle))))) sty,
          Draw.line x2 y2
            (nsub x2 (nmul (some arrowLength)
              (ncos t (nadd angle (some arrowAngle)))))
            (nsub y2 (nmul (some arrowLength)
              (nsin t (nadd angle (some arrowAngle))))) sty]
      else Except.ok [shaft]
  else if e.type == "freedraw" then
    match e.points with
    | some ps =>
      if ps.length > 1 then
        Except.ok [Draw.curve (ps.map (fun pt =>
          (nmul (nadd e.x (some pt.1)) (some PREVIEW_SCALE),
           nmul (nadd e.y (some pt.2)) (some PREVIEW_SCALE)))) sty]
      else Except.ok []
    | none => Except.ok []
  else if e.type == "image" then
    match files with
    | none => Except.error ()
    | some fs =>
      match e.fileId.bind (fun fid => fs.lookup fid) with
      | some fd =>
        match fd.dataURL with
        | some _ => Except.ok [Draw.image se.x se.y se.width se.height]
        | none => Except.ok []
      | none => Except.ok []
  else Except.ok []

/-- The element filter of PagePreview.tsx line 56: keep an element when
its isDeleted field is falsy (absent or false). -/
def previewKeeps {α : Type} (e : Element α) : Bool :=
  match e.isDeleted with
  | some b => !b
  | none => true

/-- The whole-page preview draw (PagePreview.tsx lines 40-207): filter
out deleted elements, then render each in order; a thrown error aborts
the remainder of the draw. -/
def renderPreviewPage (t : TrigOracle) (measure : String → ℚ)
    (page : Page ℚ) : Except Unit (List (Draw ℚ)) :=
  (page.elements.filter previewKeeps).foldlM
    (fun acc e => (renderPreviewElement t measure page.files e).map
      (fun ops => acc ++ ops)) []

/-- Well-formedness of one element with respect to the preview
unguarded accesses of the renderer: line and arrow elements need a non-empty
point list, text elements need a text field, and image elements need the
page to carry a files mapping. -/
def previewSafe (files : Option FilesMap) (e : Element ℚ) : Prop :=
  (e.type = "line" ∨ e.type = "arrow" →
    ∃ p ps, e.points = some (p :: ps)) ∧
  (e.type = "text" → e.text ≠ none) ∧
  (e.type = "image" → files ≠ none)

/-! ## NotebookCard thumbnail renderer (src/src/components/NotebookCard.tsx)

Modelled over the reals so that the arrowhead geometry (Math.atan2,
Math.cos, Math.sin, Math.PI) can be reasoned about exactly. -/

/-- Math.atan2 y x, the argument of the complex number x + y i. -/
noncomputable def atan2 (y x : ℝ) : ℝ := Complex.arg ⟨x, y⟩

/-- THUMBNAIL_WIDTH from NotebookCard.tsx line 14. -/
def THUMBNAIL_WIDTH : ℝ := 240

/-- SCALE_FACTOR from NotebookCard.tsx line 15. -/
noncomputable def CARD_SCALE : ℝ := THUMBNAIL_WIDTH / 595

/-- NaN-propagating Math.atan2 on possibly-absent reals. -/
noncomputable def natan2R (y x : Option ℝ) : Option ℝ :=
  match y, x with
  | some y, some x => some (atan2 y x)
  | _, _ => none

/-- JavaScript strict greater-than on possibly-absent reals. -/
noncomputable def ngtR (a b : Option ℝ) : Bool :=
  match a, b with
  | some a, some b => @decide (b < a) (Classical.propDecidable _)
  | _, _ => false

/-- scaleElement from NotebookCard.tsx lines 173-180: each of x, y,
width, height is multiplied by the scale factor when present (the
JavaScript in-operator check), untouched otherwise. -/
noncomputable def scaleElementCard (e : Element ℝ) : Element ℝ :=
  { e with
    x := e.x.map (fun v => v * CARD_SCALE)
    y := e.y.map (fun v => v * CARD_SCALE)
    width := e.width.map (fun v => v * CARD_SCALE)
    height := e.height.map (fun v => v * CARD_SCALE) }

/-- The options object built at NotebookCard.tsx lines 41-46. -/
noncomputable def cardStyle (e : Element ℝ) : DrawStyle ℝ :=
  { stroke := jsOrStr e.strokeColor ("#000000")
    strokeWidth := jsOrNum e.strokeWidth 1 * CARD_SCALE
    fill := e.backgroundColor
    fillStyle := e.fillStyle }

/-- The text-wrapping loop of the NotebookCard text case (lines 64-83),
identical in structure to the PagePreview one. -/
noncomputable def wrapWordsCard (measure : String → ℝ) (maxW : Option ℝ)
    (x : Option ℝ) (lineGap : ℝ) :
    List String → String → Option ℝ → List (Draw ℝ)
  | [], line, y => if line != "" then [Draw.fillText line x y] else []
  | w :: ws, line, y =>
    let testLine := line ++ (if line != "" then (" ") else ("")) ++ w
    if ngtR (some (measure testLine)) maxW && line != "" then
      Draw.fillText line x y ::
        wrapWordsCard measure maxW x lineGap ws w (nadd y (some lineGap))
    else
      wrapWordsCard measure maxW x lineGap ws testLine y

/-- Render one element in the NotebookCard switch (lines 48-169).  The
files mapping is defaulted to an empty object at destructuring time
(line 34), so the image case cannot fault on it; the line/arrow and
text cases fault exactly as in PagePreview. -/
noncomputable def renderCardElement (measure : String → ℝ)
    (files : FilesMap) (e : Element ℝ) : Except Unit (List (Draw ℝ)) :=
  let se := scaleElementCard e
  let sty := cardStyle e
  if e.type == "rectangle" then
    Except.ok [Draw.rect se.x se.y se.width se.height sty]
  else if e.type == "text" then
    match e.text with
    | none => Except.error ()
    | some txt =>
      let scaledFontSize := jsOrNum e.fontSize 20 * CARD_SCALE
      let y0 := nadd se.y (some scaledFontSize)
      Except.ok (wrapWordsCard measure se.width se.x
        (scaledFontSize * (12 / 10)) (txt.splitOn (" ")) "" y0)
  else if e.type == "diamond" then
    let midX := nadd se.x (nmul se.width (some (1 / 2)))
    let midY := nadd se.y (nmul se.height (some (1 / 2)))
    Except.ok [Draw.polygon
      [(midX, se.y),
       (nadd se.x se.width, midY),
       (midX, nadd se.y se.height),
       (se.x, midY)] sty]
  else if e.type == "ellipse" then
    Except.ok [Draw.ellipse
      (nadd se.x (nmul se.width (some (1 / 2))))
      (nadd se.y (nmul se.height (some (1 / 2))))
      se.width se.height sty]
  else if e.type == "line" || e.type == "arrow" then
    match e.points with
    | none => Except.error ()
    | some [] => Except.error ()
    | some (p0 :: rest) =>
      let pLast := rest.getLastD p0
      let x1 := nmul (nadd e.x (some p0.1)) (some CARD_SCALE)
      let y1 := nmul (nadd e.y (some p0.2)) (some CARD_SCALE)
      let x2 := nmul (nadd e.x (some pLast.1)) (some CARD_SCALE)
      let y2 := nmul (nadd e.y (some pLast.2)) (some CARD_SCALE)
      let shaft := Draw.line x1 y1 x2 y2 sty
      if e.type == "arrow" && e.endArrowhead == some ("arrow") then
        let angle := natan2R (nsub y2 y1) (nsub x2 x1)
        let arrowLength := 10 * CARD_SCALE
        let arrowAngle := Real.pi / 6
        Except.ok [shaft,
          Draw.line x2 y2
            (nsub x2 (nmul (some arrowLength)
              (Option.map Real.cos (nsub angle (some arrowAngle)))))
            (nsub y2 (nmul (some arrowLength)
              (Option.map Real.sin (nsub angle (some arrowAngle))))) sty,
          Draw.line x2 y2
            (nsub x2 (nmul (some arrowLength)
              (Option.map Real.cos (nadd angle (some arrowAngle)))))
            (nsub y2 (nmul (some arrowLength)
              (Option.map Real.sin (nadd angle (some arrowAngle))))) sty]
      else Except.ok [shaft]
  else if e.type == "freedraw" then
    match e.points with
    | some ps =>
      if ps.length > 1 then
        Except.ok [Draw.curve (ps.map (fun pt =>
          (nmul (nadd e.x (some pt.1)) (some CARD_SCALE),
           nmul (nadd e.y (some pt.2)) (some CARD_SCALE)))) sty]
      else Except.ok []
    | none => Except.ok []
  else if e.type == "image" then
    match e.fileId.bind (fun fid => files.lookup fid) with
    | some fd =>
      match fd.dataURL with
      | some _ => Except.ok [Draw.image se.x se.y se.width se.height]
      | none => Except.ok []
    | none => Except.ok []
  else Except.ok []

/-- The element filter of NotebookCard.tsx line 38: keep an element only
when its isDeleted field is strictly equal to false. -/
def cardKeeps {α : Type} (e : Element α) : Bool :=
  e.isDeleted == some false

/-- The whole thumbnail draw (NotebookCard.tsx lines 20-171): nothing is
drawn for a notebook with no pages; otherwise the elements of the first page
that pass the strict isDeleted filter are rendered in order, with the
files mapping defaulted to empty. -/
noncomputable def renderNotebookCard (measure : String → ℝ)
    (nb : Notebook ℝ) : Except Unit (List (Draw ℝ)) :=
  match nb.pages with
  | [] => Except.ok []
  | firstPage :: _ =>
    let files := firstPage.files.getD []
    (firstPage.elements.filter cardKeeps).foldlM
      (fun acc e => (renderCardElement measure files e).map
        (fun ops => acc ++ ops)) []

/-- The endpoint pairs of the rough.line calls in a draw list, in
order. -/
def lineSegsOf {α : Type} : List (Draw α) →
    List ((Option α × Option α) × (Option α × Option α))
  | [] => []
  | Draw.line x1 y1 x2 y2 _ :: rest => ((x1, y1), (x2, y2)) :: lineSegsOf rest
  | _ :: rest => lineSegsOf rest

/-- Euclidean length of the segment from p to q. -/
noncomputable def segLen (p q : ℝ × ℝ) : ℝ :=
  Real.sqrt ((q.1 - p.1) ^ 2 + (q.2 - p.2) ^ 2)

/-! ## App startup and legacy migration (src/unnamed/part_002, App)

JSON (de)serialisation is abstracted to parse results: a storage slot is
absent, or holds a value that parses, or holds a value whose parse
throws. -/

/-- The startup content of the two storage slots the initializer reads:
the legacy sessionStorage key holding a bare page array and the primary
localStorage key holding the notebook collection. -/
structure StartupStorage where
  legacy : Option (Except Unit (List (Page ℚ)))
  primary : Option (Except Unit (List (Notebook ℚ)))

/-- What startup produces: the initial notebook list plus the contents
of the two storage slots after the initializer ran. -/
structure StartupResult where
  notebooks : List (Notebook ℚ)
  primaryAfter : Option (Except Unit (List (Notebook ℚ)))
  legacyAfter : Option (Except Unit (List (Page ℚ)))

/-- The localStorage fallback of the initializer (part_002 lines 41-50):
the parsed primary content, or the empty list when the key is absent or
its parse throws. -/
def loadPrimary : Option (Except Unit (List (Notebook ℚ))) →
    List (Notebook ℚ)
  | some (Except.ok nbs) => nbs
  | some (Except.error _) => []
  | none => []

/-- The useState initializer of part_002 lines 18-51: when the legacy
key parses, wrap its pages into a single synthesized notebook, write
that collection to the primary key and clear the legacy key; when the
legacy parse throws, the error is caught and the legacy key is left in
place; otherwise fall back to the primary key. -/
def appInit (store : StartupStorage) (now : Nat) : StartupResult :=
  match store.legacy with
  | some (Except.ok pages) =>
    let migratedNotebook : Notebook ℚ :=
      { id := "notebook-" ++ toString now
        name := "My Notebook"
        pages := pages
        createdAt := now
        updatedAt := now }
    { notebooks := [migratedNotebook]
      primaryAfter := some (Except.ok [migratedNotebook])
      legacyAfter := none }
  | some (Except.error err) =>
    { notebooks := loadPrimary store.primary
      primaryAfter := store.primary
      legacyAfter := some (Except.error err) }
  | none =>
    { notebooks := loadPrimary store.primary
      primaryAfter := store.primary
      legacyAfter := none }

/-- A trivial trigonometry oracle used to instantiate closed statements
about the PagePreview renderer. -/
def trivialTrig : TrigOracle :=
  { cosQ := fun _ => 0, sinQ := fun _ => 0, atan2Q := fun _ _ => 0, piQ := 0 }

/-! ## Helper lemmas -/

theorem findIndexFrom_bounds {α : Type} (p : α → Bool) (l : List α)
    (n i : Nat) (h : findIndexFrom p l n = some i) :
    n ≤ i ∧ i < n + l.length := by
  induction l generalizing n with
  | nil => simp [findIndexFrom] at h
  | cons a as ih =>
    unfold findIndexFrom at h
    by_cases hp : p a
    · rw [if_pos hp] at h
      injection h with h
      simp only [List.length_cons]
      omega
    · rw [if_neg hp] at h
      have hih := ih (n + 1) h
      simp only [List.length_cons]
      omega

theorem findIndex_lt_length {α : Type} (p : α → Bool) (l : List α)
    (i : Nat) (h : findIndex p l = some i) : i < l.length := by
  unfold findIndex at h
  have hb := findIndexFrom_bounds p l 0 i h
  omega

/-! ## Claim theorems -/

/-- Claim C3 (code bug): page ids are not unique in every reachable
state.  Starting from the initial single page, adding a page (id
page-2), deleting page-1 and adding again assigns the id page-2 a second
time, because the new id is derived from the current page count. -/
theorem C3_duplicate_page_id_reachable :
    ((runOps initialEditorState
      [EditorOp.addPageOp, EditorOp.deletePageOp ("page-1"),
       EditorOp.addPageOp]).pages.map Page.id = ["page-2", "page-2"]) ∧
    ¬ ((runOps initialEditorState
      [EditorOp.addPageOp, EditorOp.deletePageOp ("page-1"),
       EditorOp.addPageOp]).pages.map Page.id).Nodup := by
  decide

/-- Claim C1 (code bug): the page count can drop below 1.  In the
reachable state whose two pages both carry the id page-2, a single
delete request for that id removes both pages (filter removes every
match), so a 2-page notebook becomes a 0-page notebook instead of a
1-page one, defeating the last-page guard. -/
theorem C1_page_count_drops_to_zero :
    ((runOps initialEditorState
      [EditorOp.addPageOp, EditorOp.deletePageOp ("page-1"),
       EditorOp.addPageOp]).pages.length = 2) ∧
    ((runOps initialEditorState
      [EditorOp.addPageOp, EditorOp.deletePageOp ("page-1"),
       EditorOp.addPageOp]).pages.map Page.id).contains ("page-2") ∧
    ((handleDelete (runOps initialEditorState
      [EditorOp.addPageOp, EditorOp.deletePageOp ("page-1"),
       EditorOp.addPageOp]) ("page-2")).pages.length = 0) := by
  decide

/-- Claim C7: deleting a page from a list of length at least 2 with a
present id yields the filtered page list and adjusts the active index
exactly as claimed: decrement when an earlier page was removed, clamp to
min of the old index and the new last index when the active page itself
was removed, and leave it unchanged otherwise. -/
theorem C7_delete_adjusts_active_index (st : EditorState)
    (deletionId : String) (dIdx : Nat)
    (hlen : 1 < st.pages.length)
    (hfind : findIndex (fun page => page.id == deletionId) st.pages =
      some dIdx) :
    (handleDelete st deletionId).pages =
      st.pages.filter (fun page => page.id != deletionId) ∧
    (handleDelete st deletionId).currentPageIndex =
      (if (dIdx : Int) < st.currentPageIndex then st.currentPageIndex - 1
       else if (dIdx : Int) = st.currentPageIndex then
         min st.currentPageIndex
           (((st.pages.filter
             (fun page => page.id != deletionId)).length : Int) - 1)
       else st.currentPageIndex) := by
  unfold handleDelete
  rw [if_neg (by omega), hfind]
  exact ⟨rfl, rfl⟩

/-- Witness for C7 at a concrete two-page notebook, deleting the second
page while the first is active. -/
theorem C7_delete_adjusts_active_index_witness :
    (handleDelete
      { pages := [INITIAL_PAGE, { id := "page-2", elements := [] }],
        currentPageIndex := 0 } ("page-2")).pages =
      [INITIAL_PAGE] ∧
    (handleDelete
      { pages := [INITIAL_PAGE, { id := "page-2", elements := [] }],
        currentPageIndex := 0 } ("page-2")).currentPageIndex = 0 := by
  have h := C7_delete_adjusts_active_index
    { pages := [INITIAL_PAGE, { id := "page-2", elements := [] }],
      currentPageIndex := 0 } ("page-2") 1 (by decide) (by decide)
  exact ⟨by rw [h.1]; decide, by rw [h.2]; decide⟩

/-- Claim C8: a committed edit whose element list is deep-equal to the
stored element list of the active page makes handleChange return without
invoking the pages-change callback (result ok none, so no new page list
and no storage write), and only a non-deep-equal list produces a new
page list. -/
theorem C8_deep_equal_edit_skipped (st : EditorState)
    (elements : List (Element ℚ)) (files : FilesMap)
    (h0 : 0 ≤ st.currentPageIndex)
    (h1 : st.currentPageIndex.toNat < st.pages.length) :
    (handleChange st elements files = Except.ok none ↔
      (st.pages.get ⟨st.currentPageIndex.toNat, h1⟩).elements = elements) ∧
    ((st.pages.get ⟨st.currentPageIndex.toNat, h1⟩).elements ≠ elements →
      handleChange st elements files = Except.ok (some
        (st.pages.set st.currentPageIndex.toNat
          { elements := elements
            id := (st.pages.get ⟨st.currentPageIndex.toNat, h1⟩).id
            appState :=
              (st.pages.get ⟨st.currentPageIndex.toNat, h1⟩).appState
            files := some files }))) := by
  unfold handleChange
  rw [dif_pos ⟨h0, h1⟩]
  constructor
  · constructor
    · intro h
      by_contra hne
      rw [if_neg hne] at h
      simp at h
    · intro h
      rw [if_pos h]
  · intro hne
    rw [if_neg hne]

/-- Witness for C8: committing the empty element list over the initial
single page (whose stored element list is also empty) is skipped. -/
theorem C8_deep_equal_edit_skipped_witness :
    handleChange initialEditorState [] [] = Except.ok none := by
  exact (C8_deep_equal_edit_skipped initialEditorState [] []
    (by decide) (by decide)).1.mpr (by decide)

/-- Claim C9: when the legacy session key holds a parseable page array
consisting of the single blank page page-1, startup yields exactly one
notebook named My Notebook containing those pages, writes that
collection to the primary key, and clears the legacy key; when the
legacy key is absent, the initial notebook list is the parsed primary
content, or empty when the primary key is absent or unparseable. -/
theorem C9_legacy_migration
    (primary : Option (Except Unit (List (Notebook ℚ)))) (now : Nat) :
    (appInit { legacy := some (Except.ok [{ id := "page-1", elements := [] }])
               primary := primary } now =
      { notebooks := [{ id := "notebook-" ++ toString now
                        name := "My Notebook"
                        pages := [{ id := "page-1", elements := [] }]
                        createdAt := now
                        updatedAt := now }]
        primaryAfter := some (Except.ok
          [{ id := "notebook-" ++ toString now
             name := "My Notebook"
             pages := [{ id := "page-1", elements := [] }]
             createdAt := now
             updatedAt := now }])
        legacyAfter := none }) ∧
    (appInit { legacy := none, primary := primary } now =
      { notebooks := loadPrimary primary
        primaryAfter := primary
        legacyAfter := none }) ∧
    loadPrimary none = [] ∧
    (∀ err, loadPrimary (some (Except.error err)) = []) ∧
    (∀ nbs, loadPrimary (some (Except.ok nbs)) = nbs) :=
  ⟨rfl, rfl, rfl, fun _ => rfl, fun _ => rfl⟩

/-- The preview renderer cannot throw on an element satisfying
previewSafe: every branch of the switch then produces a draw list. -/
theorem renderPreviewElement_ok (t : TrigOracle) (measure : String → ℚ)
    (files : Option FilesMap) (e : Element ℚ) (hs : previewSafe files e) :
    ∃ ops, renderPreviewElement t measure files e = Except.ok ops := by
  obtain ⟨h1, h2, h3⟩ := hs
  unfold renderPreviewElement
  by_cases hr : e.type = "rectangle"
  · simp [hr]
  · rw [if_neg (by simpa using hr)]
    by_cases htx : e.type = "text"
    · have := h2 htx
      match htext : e.text with
      | none => exact absurd htext this
      | some txt => simp [htx, htext]
    · rw [if_neg (by simpa using htx)]
      by_cases hd : e.type = "diamond"
      · simp [hd]
      · rw [if_neg (by simpa using hd)]
        by_cases hel : e.type = "ellipse"
        · simp [hel]
        · rw [if_neg (by simpa using hel)]
          by_cases hla : e.type = "line" ∨ e.type = "arrow"
          · obtain ⟨p, ps, hpts⟩ := h1 hla
            have hcond : (e.type == "line" || e.type == "arrow") = true := by
              rcases hla with h | h <;> simp [h]
            rw [if_pos hcond]
            cases harr :
                (e.type == "arrow" && e.endArrowhead == some ("arrow")) <;>
              simp [hpts, harr]
          · rw [if_neg (by push_neg at hla; simp [hla.1, hla.2])]
            by_cases hf : e.type = "freedraw"
            · match hpts : e.points with
              | none => simp [hf, hpts]
              | some ps =>
                by_cases hlen : ps.length > 1
                · simp [hf, hpts, hlen]
                · simp [hf, hpts, hlen]
            · rw [if_neg (by simpa using hf)]
              by_cases him : e.type = "image"
              · match hfs : files with
                | none => exact absurd rfl (h3 him)
                | some fs =>
                  match hfd : e.fileId.bind (fun fid => fs.lookup fid) with
                  | none => simp [him, hfs, hfd]
                  | some fd =>
                    match hurl : fd.dataURL with
                    | none => simp [him, hfs, hfd, hurl]
                    | some u => simp [him, hfs, hfd, hurl]
              · rw [if_neg (by simpa using him)]
                exact ⟨_, rfl⟩

/-- Folding a per-element renderer that succeeds on every list member
succeeds as a whole. -/
theorem renderPreviewFold_ok {β : Type}
    (f : Element ℚ → Except Unit (List β)) (l : List (Element ℚ))
    (acc : List β) (h : ∀ e ∈ l, ∃ ops, f e = Except.ok ops) :
    ∃ ops, l.foldlM (fun acc e => (f e).map (fun ops => acc ++ ops)) acc =
      Except.ok ops := by
  induction l generalizing acc with
  | nil => exact ⟨acc, rfl⟩
  | cons a as ih =>
    obtain ⟨o, ho⟩ := h a (List.mem_cons_self a as)
    have hrest : ∀ e ∈ as, ∃ ops, f e = Except.ok ops :=
      fun e he => h e (List.mem_cons_of_mem a he)
    obtain ⟨os, hos⟩ := ih (acc ++ o) hrest
    refine ⟨os, ?_⟩
    simp only [List.foldlM, ho, Except.map, Except.bind]
    exact hos

/-- Counterexample to claim C2 as stated: a line element with an empty
point list makes the preview draw throw (reading points[0] is
unguarded), aborting the whole render instead of being skipped. -/
theorem C2_empty_points_line_aborts_draw :
    renderPreviewPage trivialTrig (fun _ => 0)
      { id := "page-1"
        elements := [{ type := "line", points := some [] }] } =
      Except.error () := by
  rfl

/-- Claim C2 as amended: the x, y, width and height fields are each
individually guarded (scaling maps a present field and leaves an absent
one absent), and the preview render runs to completion for every element
list in which each line or arrow element has a non-empty point list,
each text element has a text field, and image elements occur only when
the page carries a files mapping; outside those conditions the draw can
throw and abort. -/
theorem C2_preview_render_safety (t : TrigOracle) (measure : String → ℚ)
    (page : Page ℚ)
    (hwf : ∀ e ∈ page.elements, previewSafe page.files e) :
    (∃ ops, renderPreviewPage t measure page = Except.ok ops) ∧
    (∀ e : Element ℚ,
      (scaleElementPreview e).x = e.x.map (fun v => v * PREVIEW_SCALE) ∧
      (scaleElementPreview e).y = e.y.map (fun v => v * PREVIEW_SCALE) ∧
      (scaleElementPreview e).width =
        e.width.map (fun v => v * PREVIEW_SCALE) ∧
      (scaleElementPreview e).height =
        e.height.map (fun v => v * PREVIEW_SCALE)) := by
  constructor
  · unfold renderPreviewPage
    apply renderPreviewFold_ok
    intro e he
    exact renderPreviewElement_ok t measure page.files e
      (hwf e (List.mem_of_mem_filter he))
  · intro e
    exact ⟨rfl, rfl, rfl, rfl⟩

/-- Witness for the amended C2 at a concrete well-formed page. -/
theorem C2_preview_render_safety_witness :
    ∃ ops, renderPreviewPage trivialTrig (fun _ => 0)
      { id := "page-1"
        elements := [{ type := "rectangle", x := some 1 }] } =
      Except.ok ops := by
  refine (C2_preview_render_safety trivialTrig (fun _ => 0) _ ?_).1
  intro e he
  simp at he
  subst he
  refine ⟨?_, ?_, ?_⟩ <;> intro h <;> simp at h

/-- Claim C10: the notebook-card thumbnail draws an element only when
its isDeleted field is strictly the boolean false, while the page
preview draws every element whose isDeleted field is falsy, so the two
renderers disagree on elements lacking the field: the card draws
nothing for a first page whose elements all lack isDeleted equal to
false, the preview keeps them. -/
theorem C10_isDeleted_filter_disagreement :
    (∀ (α : Type) (e : Element α),
      (cardKeeps e = true ↔ e.isDeleted = some false) ∧
      (previewKeeps e = true ↔ e.isDeleted ≠ some true) ∧
      (e.isDeleted = none → cardKeeps e = false ∧ previewKeeps e = true)) ∧
    (∀ (measure : String → ℝ) (nb : Notebook ℝ) (fp : Page ℝ)
       (rest : List (Page ℝ)), nb.pages = fp :: rest →
      (∀ e ∈ fp.elements, e.isDeleted ≠ some false) →
      renderNotebookCard measure nb = Except.ok []) := by
  constructor
  · intro α e
    refine ⟨?_, ?_, ?_⟩
    · simp [cardKeeps]
    · unfold previewKeeps
      match h : e.isDeleted with
      | none => simp [h]
      | some b => cases b <;> simp [h]
    · intro h
      simp [cardKeeps, previewKeeps, h]
  · intro measure nb fp rest hpages hfil
    unfold renderNotebookCard
    rw [hpages]
    have hnil : fp.elements.filter cardKeeps = [] := by
      rw [List.filter_eq_nil_iff]
      intro a ha
      have := hfil a ha
      simp [cardKeeps]
      intro hc
      exact absurd hc this
    simp only [hnil, List.foldlM]
    rfl

/-- Witness for C10: a rectangle element without an isDeleted field is
rejected by the card filter, kept by the preview filter, and a notebook
whose first page holds only that element draws an empty thumbnail. -/
theorem C10_isDeleted_filter_disagreement_witness :
    (cardKeeps (α := ℚ) { type := "rectangle" } = false ∧
     previewKeeps (α := ℚ) { type := "rectangle" } = true) ∧
    renderNotebookCard (fun _ => 0)
      { id := "nb-1", name := "N", createdAt := 0, updatedAt := 0
        pages := [{ id := "page-1"
                    elements := [{ type := "rectangle" }] }] } =
      Except.ok [] := by
  refine ⟨(C10_isDeleted_filter_disagreement.1 ℚ { type := "rectangle" }).2.2
    rfl, ?_⟩
  refine C10_isDeleted_filter_disagreement.2 (fun _ => 0) _
    { id := "page-1", elements := [{ type := "rectangle" }] } [] rfl ?_
  intro e he
  simp at he
  subst he
  simp

/-- Claim C5: the thumbnail scale law.  Each of the x, y, width, height
fields that is present is multiplied by the uniform factor 240 / 595,
and a rectangle at x 100, y 100, width 50, height 50 is drawn at
100 times 240 / 595 in both coordinates with both extents 50 times
240 / 595. -/
theorem C5_thumbnail_scale_law (e : Element ℝ) (measure : String → ℝ)
    (files : FilesMap) :
    ((scaleElementCard e).x = e.x.map (fun v => v * (240 / 595)) ∧
     (scaleElementCard e).y = e.y.map (fun v => v * (240 / 595)) ∧
     (scaleElementCard e).width = e.width.map (fun v => v * (240 / 595)) ∧
     (scaleElementCard e).height =
       e.height.map (fun v => v * (240 / 595))) ∧
    (e.type = "rectangle" → e.x = some 100 → e.y = some 100 →
     e.width = some 50 → e.height = some 50 →
     renderCardElement measure files e = Except.ok
       [Draw.rect (some (100 * (240 / 595))) (some (100 * (240 / 595)))
         (some (50 * (240 / 595))) (some (50 * (240 / 595)))
         (cardStyle e)]) := by
  have hsc : CARD_SCALE = 240 / 595 := by
    unfold CARD_SCALE THUMBNAIL_WIDTH
    norm_num
  constructor
  · simp [scaleElementCard, hsc]
  · intro ht hx hy hw hh
    simp [renderCardElement, ht, scaleElementCard, hx, hy, hw, hh, hsc]

/-- Witness for C5 at the concrete rectangle of the claim. -/
theorem C5_thumbnail_scale_law_witness :
    renderCardElement (fun _ => 0) []
      { type := "rectangle", x := some 100, y := some 100
        width := some 50, height := some 50 } = Except.ok
      [Draw.rect (some (100 * (240 / 595))) (some (100 * (240 / 595)))
        (some (50 * (240 / 595))) (some (50 * (240 / 595)))
        (cardStyle { type := "rectangle", x := some 100, y := some 100
                     width := some 50, height := some 50 })] := by
  exact (C5_thumbnail_scale_law
    { type := "rectangle", x := some 100, y := some 100
      width := some 50, height := some 50 } (fun _ => 0) []).2
    rfl rfl rfl rfl rfl

/-- Claim C6: an in-bounds adjacent swap via handlePageMove exchanges
the two pages at the swapped positions, keeps every other page in
place, relocates the active index exactly when one of the swapped slots
was active, and always preserves the active-page identity: the page at
the new active index is the page that was active before the move. -/
theorem C6_move_swaps_and_preserves_active (st : EditorState)
    (pageId : String) (dir : MoveDir) (i j : Nat)
    (hfind : findIndex (fun page => page.id == pageId) st.pages = some i)
    (hj : (if dir = MoveDir.up then (i : Int) - 1 else (i : Int) + 1) =
      (j : Int))
    (hjlen : j < st.pages.length) :
    (handlePageMove st pageId dir).pages.length = st.pages.length ∧
    (handlePageMove st pageId dir).pages[j]? = st.pages[i]? ∧
    (handlePageMove st pageId dir).pages[i]? = st.pages[j]? ∧
    (∀ k, k ≠ i → k ≠ j →
      (handlePageMove st pageId dir).pages[k]? = st.pages[k]?) ∧
    (handlePageMove st pageId dir).currentPageIndex =
      (if (i : Int) = st.currentPageIndex then (j : Int)
       else if (j : Int) = st.currentPageIndex then (i : Int)
       else st.currentPageIndex) ∧
    (∀ c : Nat, st.currentPageIndex = (c : Int) → c < st.pages.length →
      (handlePageMove st pageId
        dir).pages[(handlePageMove st pageId dir).currentPageIndex.toNat]? =
        st.pages[c]?) := by
  have hilen : i < st.pages.length := findIndex_lt_length _ _ _ hfind
  have hij : i ≠ j := by
    intro he
    subst he
    cases dir <;> simp at hj
  have hmove : handlePageMove st pageId dir =
      { pages := (st.pages.set i (st.pages.getD j default)).set j
          (st.pages.getD i default)
        currentPageIndex :=
          if (i : Int) = st.currentPageIndex then (j : Int)
          else if (j : Int) = st.currentPageIndex then (i : Int)
          else st.currentPageIndex } := by
    unfold handlePageMove
    rw [hfind]
    simp only [hj]
    rw [if_neg (by omega)]
    simp
  have hgetI : st.pages.getD i default = st.pages[i] := by
    simp [List.getD_eq_getElem?_getD, List.getElem?_eq_getElem hilen]
  have hgetJ : st.pages.getD j default = st.pages[j] := by
    simp [List.getD_eq_getElem?_getD, List.getElem?_eq_getElem hjlen]
  have hlen : (handlePageMove st pageId dir).pages.length =
      st.pages.length := by
    rw [hmove]
    simp [List.length_set]
  have hjq : (handlePageMove st pageId dir).pages[j]? = st.pages[i]? := by
    rw [hmove]
    show ((st.pages.set i _).set j _)[j]? = _
    rw [List.getElem?_set_eq_of_lt _ (by simpa [List.length_set] using hjlen),
      hgetI, List.getElem?_eq_getElem hilen]
  have hiq : (handlePageMove st pageId dir).pages[i]? = st.pages[j]? := by
    rw [hmove]
    show ((st.pages.set i _).set j _)[i]? = _
    rw [List.getElem?_set_ne (Ne.symm hij),
      List.getElem?_set_eq_of_lt _ hilen, hgetJ,
      List.getElem?_eq_getElem hjlen]
  have hkq : ∀ k, k ≠ i → k ≠ j →
      (handlePageMove st pageId dir).pages[k]? = st.pages[k]? := by
    intro k hki hkj
    rw [hmove]
    show ((st.pages.set i _).set j _)[k]? = _
    rw [List.getElem?_set_ne (Ne.symm hkj), List.getElem?_set_ne (Ne.symm hki)]
  refine ⟨hlen, hjq, hiq, hkq, by rw [hmove], ?_⟩
  intro c hc hclen
  have hcur : (handlePageMove st pageId dir).currentPageIndex =
      (if (i : Int) = st.currentPageIndex then (j : Int)
       else if (j : Int) = st.currentPageIndex then (i : Int)
       else st.currentPageIndex) := by rw [hmove]
  by_cases h1 : (i : Int) = st.currentPageIndex
  · have hic : i = c := by omega
    rw [hcur, if_pos h1]
    simp only [Int.toNat_natCast]
    rw [hjq, hic]
  · by_cases h2 : (j : Int) = st.currentPageIndex
    · have hjc : j = c := by omega
      rw [hcur, if_neg h1, if_pos h2]
      simp only [Int.toNat_natCast]
      rw [hiq, hjc]
    · rw [hcur, if_neg h1, if_neg h2, hc]
      simp only [Int.toNat_natCast]
      exact hkq c (by omega) (by omega)

/-- Witness for C6: moving the active first page down in a two-page
notebook swaps the pages and carries the active index to position 1. -/
theorem C6_move_swaps_and_preserves_active_witness :
    (handlePageMove
      { pages := [INITIAL_PAGE, { id := "page-2", elements := [] }],
        currentPageIndex := 0 } ("page-1") MoveDir.down).pages[1]? =
      some INITIAL_PAGE ∧
    (handlePageMove
      { pages := [INITIAL_PAGE, { id := "page-2", elements := [] }],
        currentPageIndex := 0 } ("page-1") MoveDir.down).currentPageIndex =
      1 := by
  have h := C6_move_swaps_and_preserves_active
    { pages := [INITIAL_PAGE, { id := "page-2", elements := [] }],
      currentPageIndex := 0 } ("page-1") MoveDir.down 0 1
    (by decide) (by decide) (by decide)
  refine ⟨?_, ?_⟩
  · rw [h.2.1]
    rfl
  · rw [h.2.2.2.2.1]
    decide

/-- An arrowhead stroke of the form drawn by the renderer has Euclidean
length exactly its nominal length. -/
theorem segLen_stroke (a b L phi : ℝ) (hL : 0 ≤ L) :
    segLen (a, b) (a - L * Real.cos phi, b - L * Real.sin phi) = L := by
  unfold segLen
  have h : (a - L * Real.cos phi - a) ^ 2 + (b - L * Real.sin phi - b) ^ 2 =
      L ^ 2 * ((Real.cos phi) ^ 2 + (Real.sin phi) ^ 2) := by ring
  simp only [h, Real.cos_sq_add_sin_sq, mul_one]
  exact Real.sqrt_sq hL

/-- Claim C4: an arrow element with end-style arrow and a non-empty
point list renders as exactly 3 line segments: the shaft from the scaled
first point to the scaled last point (each offset by the element origin
before scaling), plus two head strokes starting at the scaled endpoint,
each of Euclidean length 10 times the scale factor, at angles shaft
angle minus and plus pi over 6; an arrow with a different end-style, and
a line element, render as exactly 1 segment. -/
theorem C4_arrow_three_segments (e : Element ℝ) (measure : String → ℝ)
    (files : FilesMap) (ex ey : ℝ) (p0 : ℝ × ℝ) (rest : List (ℝ × ℝ))
    (x1 y1 x2 y2 th : ℝ)
    (hx : e.x = some ex) (hy : e.y = some ey)
    (hpts : e.points = some (p0 :: rest))
    (hx1 : x1 = (ex + p0.1) * CARD_SCALE)
    (hy1 : y1 = (ey + p0.2) * CARD_SCALE)
    (hx2 : x2 = (ex + (rest.getLastD p0).1) * CARD_SCALE)
    (hy2 : y2 = (ey + (rest.getLastD p0).2) * CARD_SCALE)
    (hth : th = atan2 (y2 - y1) (x2 - x1)) :
    (e.type = "arrow" → e.endArrowhead = some ("arrow") →
      renderCardElement measure files e = Except.ok
        [Draw.line (some x1) (some y1) (some x2) (some y2) (cardStyle e),
         Draw.line (some x2) (some y2)
           (some (x2 - 10 * CARD_SCALE * Real.cos (th - Real.pi / 6)))
           (some (y2 - 10 * CARD_SCALE * Real.sin (th - Real.pi / 6)))
           (cardStyle e),
         Draw.line (some x2) (some y2)
           (some (x2 - 10 * CARD_SCALE * Real.cos (th + Real.pi / 6)))
           (some (y2 - 10 * CARD_SCALE * Real.sin (th + Real.pi / 6)))
           (cardStyle e)] ∧
      (∀ ops, renderCardElement measure files e = Except.ok ops →
        (lineSegsOf ops).length = 3) ∧
      segLen (x2, y2)
        (x2 - 10 * CARD_SCALE * Real.cos (th - Real.pi / 6),
         y2 - 10 * CARD_SCALE * Real.sin (th - Real.pi / 6)) =
        10 * CARD_SCALE ∧
      segLen (x2, y2)
        (x2 - 10 * CARD_SCALE * Real.cos (th + Real.pi / 6),
         y2 - 10 * CARD_SCALE * Real.sin (th + Real.pi / 6)) =
        10 * CARD_SCALE) ∧
    ((e.type = "line" ∨ (e.type = "arrow" ∧ e.endArrowhead ≠ some ("arrow"))) →
      renderCardElement measure files e = Except.ok
        [Draw.line (some x1) (some y1) (some x2) (some y2) (cardStyle e)] ∧
      (∀ ops, renderCardElement measure files e = Except.ok ops →
        (lineSegsOf ops).length = 1)) := by
  subst hx1 hy1 hx2 hy2 hth
  have hL : (0 : ℝ) ≤ 10 * CARD_SCALE := by
    unfold CARD_SCALE THUMBNAIL_WIDTH
    norm_num
  constructor
  · intro ht ha
    refine ⟨?_, ?_, segLen_stroke _ _ _ _ hL, segLen_stroke _ _ _ _ hL⟩
    · simp [renderCardElement, ht, ha, hx, hy, hpts, nadd, nmul, nsub,
        natan2R, mul_assoc]
    · intro ops hops
      simp [renderCardElement, ht, ha, hx, hy, hpts, nadd, nmul, nsub,
        natan2R] at hops
      subst hops
      simp [lineSegsOf]
  · intro hline
    have heq1 : renderCardElement measure files e = Except.ok
        [Draw.line (some ((ex + p0.1) * CARD_SCALE))
          (some ((ey + p0.2) * CARD_SCALE))
          (some ((ex + (rest.getLastD p0).1) * CARD_SCALE))
          (some ((ey + (rest.getLastD p0).2) * CARD_SCALE))
          (cardStyle e)] := by
      rcases hline with ht | ⟨ht, ha⟩
      · simp [renderCardElement, ht, hx, hy, hpts, nadd, nmul]
      · have hfalse : (e.endArrowhead == some ("arrow")) = false :=
          beq_eq_false_iff_ne.mpr ha
        simp [renderCardElement, ht, hx, hy, hpts, nadd, nmul, hfalse]
    refine ⟨heq1, ?_⟩
    intro ops hops
    rw [heq1] at hops
    simp only [Except.ok.injEq] at hops
    subst hops
    simp [lineSegsOf]

/-- Witness for C4: a concrete arrow from the origin to the point ten
units right, with the arrow end-style, renders as 3 line segments. -/
theorem C4_arrow_three_segments_witness :
    ∃ ops, renderCardElement (fun _ => 0) []
      { type := "arrow", x := some 0, y := some 0
        points := some [((0 : ℝ), (0 : ℝ)), ((10 : ℝ), (0 : ℝ))]
        endArrowhead := some ("arrow") } = Except.ok ops ∧
      (lineSegsOf ops).length = 3 := by
  have h := (C4_arrow_three_segments
    { type := "arrow", x := some 0, y := some 0
      points := some [((0 : ℝ), (0 : ℝ)), ((10 : ℝ), (0 : ℝ))]
      endArrowhead := some ("arrow") } (fun _ => 0) [] 0 0
    ((0 : ℝ), (0 : ℝ)) [((10 : ℝ), (0 : ℝ))] _ _ _ _ _
    rfl rfl rfl rfl rfl rfl rfl rfl).1 rfl rfl
  exact ⟨_, h.1, h.2.1 _ h.1⟩

end ExcaliNote
